import Mathlib

/-!
Verification development for the wav-audio-player command-line program
(`src/main.cpp`).  The program is shallowly embedded: the option table,
the argument scanner, the signal handler, the playback-finished callback
and the body of `main` (guards, resource acquisition, supervising poll
loop) are translated into executable Lean definitions.  The external
audio engine (device manager, file manager, track manager, engine
thread) is modelled as an environment of oracles, and the observable
behaviour of a run is a trace of effect events plus an exit code.
-/

namespace WavPlayer

/-- Observable effects emitted by the program.  Every `std::cout`,
`std::cerr` and `LOG_*` call is a `log`; the remaining constructors
record the calls the program makes into the audio-engine collaborators,
the flag writes, and the poll-loop sleep. -/
inductive Eff where
  | log (msg : String)
  | engineStartThread
  | installSignalHandler
  | addTrack
  | addDeviceOutput (id : Nat)
  | addFileInput (path : String)
  | setEventCallback
  | trackPlay
  | trackStop
  | engineStopThread
  | setRunning (b : Bool)
  | sleep100ms
deriving DecidableEq

/-- Device descriptor, as used by the two call sites in `main.cpp`:
the `--set-audio-output` action inspects `.id`, and `main` inspects
`has_value` on the result of device resolution.  The engine header is
external, so the returned record is modelled with both an `id` and a
validity flag. -/
structure AudioDevice where
  id : Nat
  name : String
  input_channels : Nat
  output_channels : Nat
  has_value : Bool
deriving DecidableEq

/-- `AudioDevice::to_string` lives in the external engine header; its
exact text is immaterial to every claim, only that `main.cpp` prints it. -/
def AudioDevice.to_string (d : AudioDevice) : String :=
  "ID: " ++ toString d.id ++ ", Name: " ++ d.name

/-- The mutable globals of `main.cpp` that option actions write
(`program_name`, `input_file_path`, `audio_output_device_id`).  The
`running` flag is modelled separately (see `runningInit`, `stepFlag`). -/
structure AppState where
  program_name : String
  input_file_path : Option String
  audio_output_device_id : Option Nat
deriving DecidableEq

/-- Initial values of the globals in `main.cpp`. -/
def initState : AppState := ⟨"", none, none⟩

/-- Initial value of the global `running` flag (`static bool running = true`). -/
def runningInit : Bool := true

/-- Environment of external collaborators: the device manager, file
manager and track manager singletons, the engine thread, and the
schedule of observations the poll loop makes.  `start_thread_ok` models
whether `engine.start_thread()` succeeds; `main.cpp` discards that
result.  Each `schedule` entry is one loop iteration's pair
(`engine.is_running()`, value of `running` read at that iteration). -/
structure Env where
  audio_devices : List AudioDevice
  get_audio_device : Nat → AudioDevice
  get_default_audio_output_device : AudioDevice
  is_wav_file : String → Bool
  read_wav_file : String → Option String
  track_created : Bool
  start_thread_ok : Bool
  schedule : List (Bool × Bool)

/-- `std::stoi` on the device-id argument: a non-empty all-digit string
whose value fits in `int` (≤ 2147483647 = INT_MAX) parses as its
decimal value.  An empty or non-digit string models the thrown
`std::invalid_argument`, and an all-digit numeral above INT_MAX the
thrown `std::out_of_range`; both exceptions are uncaught in `main.cpp`,
hence abnormal termination (`none`).  Signed/whitespace/suffix forms of
the C++ function are not exercised by any claim and are not modelled. -/
def stoi (s : String) : Option Nat :=
  if s.data ≠ [] ∧ s.data.all Char.isDigit ∧
      s.data.foldl (fun n c => n * 10 + (c.toNat - 48)) 0 ≤ 2147483647 then
    some (s.data.foldl (fun n c => n * 10 + (c.toNat - 48)) 0)
  else none

/-- Result of running one option action: return normally with updated
globals, call `std::exit`, or hit undefined behaviour / an uncaught
exception (null-pointer `std::string` construction, `std::stoi` throw). -/
inductive ActResult where
  | cont (st : AppState) (tr : List Eff)
  | exitp (code : Int) (tr : List Eff)
  | crashed (tr : List Eff)
deriving DecidableEq

/-- The (long form, short form, description) rows of the option table,
used by the help action to print usage. -/
def commandInfo : List (String × String × String) :=
  [("--help", "-h", "Show help message"),
   ("--version", "-v", "Show version information"),
   ("--input-file", "-i", "Specify input WAV file"),
   ("--list-audio-devices", "-ld", "List available audio devices"),
   ("--set-audio-output", "-o", "Specify audio output device by ID")]

/-- Output of `help(...)`: banner, usage line with the recorded program
name, and one line per option table entry. -/
def helpEffects (pname : String) : List Eff :=
  Eff.log "WavAudioPlayer - A simple WAV audio player using Minimal Audio Engine"
    :: Eff.log ("Usage: " ++ pname ++ " [options]")
    :: Eff.log "Options:"
    :: commandInfo.map (fun c => Eff.log ("  " ++ c.1 ++ ", " ++ c.2.1 ++ "\t" ++ c.2.2))

def versionString : String := "1.0.0"

/-- `help` prints usage and calls `std::exit(0)`; it ignores its argument. -/
def helpAction (_env : Env) (st : AppState) (_arg : Option String) : ActResult :=
  ActResult.exitp 0 (helpEffects st.program_name)

/-- `--version` action: print the version string and `std::exit(0)`. -/
def versionAction (_env : Env) (_st : AppState) (_arg : Option String) : ActResult :=
  ActResult.exitp 0 [Eff.log ("WavAudioPlayer Version " ++ versionString)]

/-- `--input-file` action: `input_file_path = std::string(arg)`.
With a null `arg` (option was the last token) `std::string(nullptr)` is
undefined behaviour, modelled as `crashed`. -/
def inputFileAction (_env : Env) (st : AppState) (arg : Option String) : ActResult :=
  match arg with
  | none => ActResult.crashed []
  | some s => ActResult.cont ⟨st.program_name, some s, st.audio_output_device_id⟩ []

/-- `--list-audio-devices` action: print every enumerated device and
`std::exit(0)`. -/
def listDevicesAction (env : Env) (_st : AppState) (_arg : Option String) : ActResult :=
  ActResult.exitp 0 (Eff.log "Available Audio Devices:" ::
    env.audio_devices.map (fun d =>
      Eff.log ("  ID: " ++ toString d.id ++ ", Name: " ++ d.name ++
        ", (Input Channels: " ++ toString d.input_channels ++
        ", Output Channels: " ++ toString d.output_channels ++ ")")))

/-- `--set-audio-output` action: parse the id with `std::stoi`, look the
device up, and either report failure and `std::exit(1)` or record the id. -/
def setAudioOutputAction (env : Env) (st : AppState) (arg : Option String) : ActResult :=
  match arg with
  | none => ActResult.crashed []
  | some s =>
    match stoi s with
    | none => ActResult.crashed []
    | some device_id =>
      let d := env.get_audio_device device_id
      if d.id ≠ device_id then
        ActResult.exitp 1 [Eff.log ("Error: No audio device found with ID " ++
          toString device_id ++ ".")]
      else
        ActResult.cont ⟨st.program_name, st.input_file_path, some device_id⟩
          [Eff.log ("Selected Audio Output Device: " ++ d.to_string)]

/-- One entry of the `commands` table. -/
structure Command where
  argument : String
  argument_short : String
  description : String
  action : Env → AppState → Option String → ActResult

def helpCmd : Command := ⟨"--help", "-h", "Show help message", helpAction⟩

def versionCmd : Command := ⟨"--version", "-v", "Show version information", versionAction⟩

def inputFileCmd : Command := ⟨"--input-file", "-i", "Specify input WAV file", inputFileAction⟩

def listDevicesCmd : Command :=
  ⟨"--list-audio-devices", "-ld", "List available audio devices", listDevicesAction⟩

def setAudioOutputCmd : Command :=
  ⟨"--set-audio-output", "-o", "Specify audio output device by ID", setAudioOutputAction⟩

/-- The option table, in source order. -/
def commands : List Command :=
  [helpCmd, versionCmd, inputFileCmd, listDevicesCmd, setAudioOutputCmd]

/-- The inner loop of `parse_command_line_arguments`: first table entry
whose long or short form equals the token, if any (`strcmp` + `break`). -/
def findCommand (t : String) : Option Command :=
  commands.find? (fun c => t == c.argument || t == c.argument_short)

/-- Result of the whole argument scan. -/
inductive ParseResult where
  | cont (st : AppState) (tr : List Eff)
  | exitp (code : Int) (tr : List Eff)
  | crashed (tr : List Eff)
deriving DecidableEq

/-- Prepend already-emitted effects to a scan result's trace. -/
def ParseResult.prepend (tr : List Eff) : ParseResult → ParseResult
  | ParseResult.cont st tr' => ParseResult.cont st (tr ++ tr')
  | ParseResult.exitp c tr' => ParseResult.exitp c (tr ++ tr')
  | ParseResult.crashed tr' => ParseResult.crashed (tr ++ tr')

/-- The token scan of `parse_command_line_arguments`: each token is
matched against the table; a match runs the action with the *next*
token (`argv[i+1]`, `none` when absent) as argument, but the loop index
still advances by one only, so that next token is scanned again.
Unmatched tokens are skipped silently. -/
def parseTokens (env : Env) : List String → AppState → ParseResult
  | [], st => ParseResult.cont st []
  | t :: rest, st =>
    match findCommand t with
    | none => parseTokens env rest st
    | some c =>
      match c.action env st rest.head? with
      | ActResult.cont st' tr => ParseResult.prepend tr (parseTokens env rest st')
      | ActResult.exitp code tr => ParseResult.exitp code tr
      | ActResult.crashed tr => ParseResult.crashed tr

/-- `parse_command_line_arguments(argc, argv)`: with fewer than two
arguments, `help(argv[0])` runs while `program_name` is still `""`
(it is assigned only after that early-out); otherwise `program_name`
is set to `argv[0]` and the tokens after it are scanned. -/
def parseArgs (env : Env) (args : List String) : ParseResult :=
  match args with
  | [] => ParseResult.exitp 0 (helpEffects "")
  | [_] => ParseResult.exitp 0 (helpEffects "")
  | prog :: rest => parseTokens env rest ⟨prog, none, none⟩

/-- `eTrackEvent` from the engine header; only `PlaybackFinished` is
examined by `main.cpp`, other members are collapsed into `OtherEvent`. -/
inductive eTrackEvent where
  | PlaybackFinished
  | OtherEvent
deriving DecidableEq

/-- Effects of the installed SIGINT handler (`main.cpp` lines 135-138):
it logs and then writes `running = false`. -/
def sigintHandlerEffects : List Eff :=
  [Eff.log "SIGINT received, shutting down...", Eff.setRunning false]

/-- Effects of the track event callback (`main.cpp` lines 170-175):
on `PlaybackFinished` it logs and writes `running = false`, otherwise
it does nothing. -/
def trackEventCallbackEffects (e : eTrackEvent) : List Eff :=
  if e = eTrackEvent.PlaybackFinished then
    [Eff.log "Track playback finished.", Eff.setRunning false]
  else []

/-- The two asynchronous triggers that may write the `running` flag. -/
inductive ShutdownTrigger where
  | sigint
  | trackEvent (e : eTrackEvent)
deriving DecidableEq

def triggerEffects : ShutdownTrigger → List Eff
  | ShutdownTrigger.sigint => sigintHandlerEffects
  | ShutdownTrigger.trackEvent e => trackEventCallbackEffects e

/-- The values written to the `running` flag by a trace. -/
def flagWrites (tr : List Eff) : List Bool :=
  tr.filterMap (fun e => match e with | Eff.setRunning b => some b | _ => none)

/-- Value of the `running` flag after one trigger fires with the flag
currently at `b`: the trigger's writes applied in order. -/
def stepFlag (b : Bool) (t : ShutdownTrigger) : Bool :=
  (flagWrites (triggerEffects t)).foldl (fun _ w => w) b

/-- Value of the `running` flag after a session's sequence of trigger
firings, starting from its initializer. -/
def flagAfter (ts : List ShutdownTrigger) : Bool :=
  ts.foldl stepFlag runningInit

/-- The supervising poll loop (`main.cpp` lines 181-190), driven by the
schedule of observations: while `engine.is_running()`, either sleep
(flag still true) or log, stop the track, stop the engine thread and
break (flag false).  A schedule that runs out leaves the loop mid-flight
with no further effects observed. -/
def mainLoop : List (Bool × Bool) → List Eff
  | [] => []
  | (engineRunning, runningFlag) :: rest =>
    if engineRunning then
      if runningFlag then Eff.sleep100ms :: mainLoop rest
      else [Eff.log "Shutting down engine...", Eff.trackStop, Eff.engineStopThread]
    else []

/-- Final observable behaviour of a run: exit code plus trace, or a
crash (undefined behaviour / uncaught exception) plus the trace so far. -/
inductive Outcome where
  | exited (code : Int) (tr : List Eff)
  | crashed (tr : List Eff)
deriving DecidableEq

def Outcome.trace : Outcome → List Eff
  | Outcome.exited _ tr => tr
  | Outcome.crashed tr => tr

def Outcome.code : Outcome → Option Int
  | Outcome.exited c _ => some c
  | Outcome.crashed _ => none

/-- Effects of `main` up to and including the input-file guard's log. -/
def initTrace : List Eff := [Eff.log "Initializing WavAudioPlayer..."]

/-- Effects of `main` from initialization through engine thread start,
SIGINT handler installation and track creation (lines 113-141). -/
def setupTrace (path : String) : List Eff :=
  initTrace ++ [Eff.log ("WAV file to be played: " ++ path),
    Eff.engineStartThread, Eff.installSignalHandler, Eff.addTrack]

/-- The output device `main` resolves (line 149): the explicitly
configured id when one was recorded, else the system default. -/
def resolvedDevice (env : Env) (st : AppState) : AudioDevice :=
  match st.audio_output_device_id with
  | some id => env.get_audio_device id
  | none => env.get_default_audio_output_device

/-- Effects of the output-device binding step (lines 149-155): bind and
log on success, log the failure and carry on otherwise. -/
def deviceBindTrace (env : Env) (st : AppState) : List Eff :=
  if (resolvedDevice env st).has_value then
    [Eff.addDeviceOutput (resolvedDevice env st).id,
     Eff.log ("Set audio output device: " ++ (resolvedDevice env st).to_string)]
  else [Eff.log "No default audio output device found."]

/-- Effects of input binding, callback installation and playback start
(lines 158-178) on the successful path. -/
def playTrace (path : String) : List Eff :=
  [Eff.addFileInput path, Eff.log ("Set WAV file as audio input: " ++ path),
   Eff.setEventCallback, Eff.trackPlay]

/-- The body of `main` after argument parsing (`main.cpp` lines
113-192): the no-input-file success exit, the WAV validity guard, engine
thread start, SIGINT handler installation, track creation, output-device
resolution (absence of a device is logged and tolerated), WAV read and
input binding, callback installation, playback start, and the
supervising loop. -/
def runSession (env : Env) (st : AppState) : Outcome :=
  match st.input_file_path with
  | none => Outcome.exited 0 (initTrace ++ [Eff.log "No input file specified. Exiting."])
  | some path =>
    if env.is_wav_file path then
      if env.track_created then
        match env.read_wav_file path with
        | some _ =>
          Outcome.exited 0 (setupTrace path ++ deviceBindTrace env st ++
            playTrace path ++ mainLoop env.schedule)
        | none =>
          Outcome.exited (-1) (setupTrace path ++ deviceBindTrace env st ++
            [Eff.log ("Failed to read WAV file: " ++ path)])
      else
        Outcome.exited (-1) (setupTrace path ++ [Eff.log "Failed to create track."])
    else
      Outcome.exited (-1) (initTrace ++
        [Eff.log ("Specified input file is not a valid WAV file: " ++ path)])

/-- The whole program: scan the arguments, then run the session on the
resulting configuration. -/
def mainRun (env : Env) (args : List String) : Outcome :=
  match parseArgs env args with
  | ParseResult.exitp code tr => Outcome.exited code tr
  | ParseResult.crashed tr => Outcome.crashed tr
  | ParseResult.cont st tr =>
    match runSession env st with
    | Outcome.exited code tr' => Outcome.exited code (tr ++ tr')
    | Outcome.crashed tr' => Outcome.crashed (tr ++ tr')

/-- The two teardown calls of interest for the ordering invariant. -/
def isStopCall : Eff → Bool
  | Eff.trackStop => true
  | Eff.engineStopThread => true
  | _ => false

/-- Subsequence of a trace consisting of the teardown calls. -/
def stopCalls (tr : List Eff) : List Eff := tr.filter isStopCall

/-- `env` with the (ignored) engine-thread start result replaced. -/
def withStartOk (env : Env) (b : Bool) : Env :=
  ⟨env.audio_devices, env.get_audio_device, env.get_default_audio_output_device,
   env.is_wav_file, env.read_wav_file, env.track_created, b, env.schedule⟩

/-- A concrete, fully functioning environment used by the witnesses:
one valid device (id 0) which is also the default, every path a valid
readable WAV file, track creation succeeds, and the poll loop observes
one quiet iteration and then the flag gone false. -/
def baseEnv : Env :=
  ⟨[⟨0, "Speakers", 0, 2, true⟩],
   fun _ => ⟨0, "Speakers", 0, 2, true⟩,
   ⟨0, "Speakers", 0, 2, true⟩,
   fun _ => true,
   fun p => some p,
   true,
   true,
   [(true, true), (true, false)]⟩

/-- Environment whose track manager fails to produce the track
(`get_track` returns null): used to exhibit the lifecycle-error path. -/
def envTrackFail : Env :=
  ⟨[], fun _ => ⟨0, "null", 0, 0, true⟩, ⟨0, "null", 0, 0, true⟩,
   fun _ => true, fun p => some p, false, true, []⟩

/-- Environment whose device registry knows no devices: every lookup
returns a descriptor with id 0 and no value, and there is no default
output device. -/
def envNoDevice : Env :=
  ⟨[], fun _ => ⟨0, "none", 0, 0, false⟩, ⟨0, "none", 0, 0, false⟩,
   fun _ => true, fun p => some p, true, true, [(true, false)]⟩

/-- Environment whose file manager rejects every path as not a WAV file. -/
def envBadWav : Env :=
  ⟨[], fun _ => ⟨0, "dev", 0, 0, true⟩, ⟨0, "dev", 0, 0, true⟩,
   fun _ => false, fun _ => none, true, true, []⟩

def ActResult.trace : ActResult → List Eff
  | ActResult.cont _ tr => tr
  | ActResult.exitp _ tr => tr
  | ActResult.crashed tr => tr

def ParseResult.trace : ParseResult → List Eff
  | ParseResult.cont _ tr => tr
  | ParseResult.exitp _ tr => tr
  | ParseResult.crashed tr => tr

/-- A trace consisting solely of log output: the argument-scanning phase
emits nothing else. -/
def logOnly (tr : List Eff) : Prop := ∀ e ∈ tr, ∃ m, e = Eff.log m

theorem logOnly_nil : logOnly [] := by
  intro e he
  cases he

theorem logOnly_append {a b : List Eff} (ha : logOnly a) (hb : logOnly b) :
    logOnly (a ++ b) := by
  intro e he
  rcases List.mem_append.mp he with h | h
  · exact ha e h
  · exact hb e h

theorem logOnly_map_log {α : Type} (f : α → String) (l : List α) :
    logOnly (l.map (fun x => Eff.log (f x))) := by
  intro e he
  rcases List.mem_map.mp he with ⟨x, _, rfl⟩
  exact ⟨f x, rfl⟩

theorem helpEffects_logOnly (pname : String) : logOnly (helpEffects pname) := by
  intro e he
  simp only [helpEffects, List.mem_cons] at he
  rcases he with rfl | rfl | rfl | h
  · exact ⟨_, rfl⟩
  · exact ⟨_, rfl⟩
  · exact ⟨_, rfl⟩
  · rcases List.mem_map.mp h with ⟨c, _, rfl⟩
    exact ⟨_, rfl⟩

theorem action_trace_logOnly (c : Command) (hc : c ∈ commands)
    (env : Env) (st : AppState) (arg : Option String) :
    logOnly ((c.action env st arg).trace) := by
  simp only [commands, List.mem_cons, List.not_mem_nil, or_false] at hc
  rcases hc with rfl | rfl | rfl | rfl | rfl
  · exact helpEffects_logOnly st.program_name
  · intro e he
    simp only [versionCmd, versionAction, ActResult.trace, List.mem_singleton] at he
    exact ⟨_, he⟩
  · cases arg with
    | none => exact logOnly_nil
    | some s => exact logOnly_nil
  · intro e he
    simp only [listDevicesCmd, listDevicesAction, ActResult.trace, List.mem_cons] at he
    rcases he with rfl | h
    · exact ⟨_, rfl⟩
    · rcases List.mem_map.mp h with ⟨d, _, rfl⟩
      exact ⟨_, rfl⟩
  · cases arg with
    | none => exact logOnly_nil
    | some s =>
      simp only [setAudioOutputCmd, setAudioOutputAction]
      cases stoi s with
      | none => exact logOnly_nil
      | some device_id =>
        by_cases h : (env.get_audio_device device_id).id ≠ device_id
        · simp only [if_pos h]
          intro e he
          simp only [ActResult.trace, List.mem_singleton] at he
          exact ⟨_, he⟩
        · simp only [if_neg h]
          intro e he
          simp only [ActResult.trace, List.mem_singleton] at he
          exact ⟨_, he⟩

theorem prepend_trace (tr : List Eff) (r : ParseResult) :
    (ParseResult.prepend tr r).trace = tr ++ r.trace := by
  cases r <;> rfl

theorem findCommand_mem {t : String} {c : Command} (h : findCommand t = some c) :
    c ∈ commands :=
  List.mem_of_find?_eq_some h

theorem parseTokens_trace_logOnly (env : Env) (ts : List String) (st : AppState) :
    logOnly ((parseTokens env ts st).trace) := by
  induction ts generalizing st with
  | nil => exact logOnly_nil
  | cons t rest ih =>
    cases hf : findCommand t with
    | none =>
      simpa only [parseTokens, hf] using ih st
    | some c =>
      have hact := action_trace_logOnly c (findCommand_mem hf) env st rest.head?
      cases hr : c.action env st rest.head? with
      | cont st' tr =>
        rw [hr] at hact
        simp only [parseTokens, hf, hr, prepend_trace]
        exact logOnly_append hact (ih st')
      | exitp code tr =>
        rw [hr] at hact
        simp only [parseTokens, hf, hr]
        exact hact
      | crashed tr =>
        rw [hr] at hact
        simp only [parseTokens, hf, hr]
        exact hact

theorem parseArgs_trace_logOnly (env : Env) (args : List String) :
    logOnly ((parseArgs env args).trace) := by
  match args with
  | [] => exact helpEffects_logOnly ""
  | [p] => exact helpEffects_logOnly ""
  | p :: t :: rest => exact parseTokens_trace_logOnly env (t :: rest) ⟨p, none, none⟩

theorem not_mem_of_logOnly {tr : List Eff} (h : logOnly tr) {e : Eff}
    (he : ∀ m, e ≠ Eff.log m) : e ∉ tr := by
  intro hmem
  rcases h e hmem with ⟨m, rfl⟩
  exact he m rfl

theorem stopCalls_eq_nil_of_logOnly {tr : List Eff} (h : logOnly tr) :
    stopCalls tr = [] := by
  simp only [stopCalls, List.filter_eq_nil_iff]
  intro e he
  rcases h e he with ⟨m, rfl⟩
  simp [isStopCall]

theorem stopCalls_append (a b : List Eff) :
    stopCalls (a ++ b) = stopCalls a ++ stopCalls b := by
  simp [stopCalls, List.filter_append]

theorem mainLoop_stopCalls (sched : List (Bool × Bool)) :
    stopCalls (mainLoop sched) = []
    ∨ stopCalls (mainLoop sched) = [Eff.trackStop, Eff.engineStopThread] := by
  induction sched with
  | nil => left; rfl
  | cons ob rest ih =>
    rcases ob with ⟨engineRunning, runningFlag⟩
    cases engineRunning with
    | false => left; rfl
    | true =>
      cases runningFlag with
      | true =>
        simpa only [mainLoop, if_true, stopCalls, List.filter, isStopCall] using ih
      | false =>
        right; rfl

theorem stopCalls_setupTrace (path : String) : stopCalls (setupTrace path) = [] := by
  simp [setupTrace, initTrace, stopCalls, isStopCall]

theorem stopCalls_deviceBindTrace (env : Env) (st : AppState) :
    stopCalls (deviceBindTrace env st) = [] := by
  unfold deviceBindTrace
  split <;> simp [stopCalls, isStopCall]

theorem stopCalls_playTrace (path : String) : stopCalls (playTrace path) = [] := by
  simp [playTrace, stopCalls, isStopCall]

theorem runSession_stopCalls (env : Env) (st : AppState) :
    stopCalls (runSession env st).trace = []
    ∨ stopCalls (runSession env st).trace = [Eff.trackStop, Eff.engineStopThread] := by
  unfold runSession
  split
  · left
    simp [Outcome.trace, initTrace, stopCalls, isStopCall]
  · split
    · split
      · split
        · rcases mainLoop_stopCalls env.schedule with h | h
          · left
            simp [Outcome.trace, stopCalls_append, stopCalls_setupTrace,
              stopCalls_deviceBindTrace, stopCalls_playTrace, h]
          · right
            simp [Outcome.trace, stopCalls_append, stopCalls_setupTrace,
              stopCalls_deviceBindTrace, stopCalls_playTrace, h]
        · left
          simp only [Outcome.trace, stopCalls_append, stopCalls_setupTrace,
            stopCalls_deviceBindTrace]
          rfl
      · left
        simp only [Outcome.trace, stopCalls_append, stopCalls_setupTrace]
        rfl
    · left
      simp [Outcome.trace, initTrace, stopCalls, isStopCall]

theorem stepFlag_false (t : ShutdownTrigger) : stepFlag false t = false := by
  cases t with
  | sigint => rfl
  | trackEvent e => cases e <;> rfl

theorem foldl_stepFlag_false (ts : List ShutdownTrigger) :
    ts.foldl stepFlag false = false := by
  induction ts with
  | nil => rfl
  | cons t rest ih =>
    rw [List.foldl_cons, stepFlag_false]
    exact ih

theorem prepend_nil (r : ParseResult) : ParseResult.prepend [] r = r := by
  cases r <;> simp [ParseResult.prepend]

/-- Tokens matching no table entry are skipped without any effect. -/
theorem parseTokens_skip (env : Env) (pre us : List String) (st : AppState)
    (hpre : ∀ t ∈ pre, findCommand t = none) :
    parseTokens env (pre ++ us) st = parseTokens env us st := by
  induction pre with
  | nil => rfl
  | cons t rest ih =>
    have hnone : findCommand t = none := hpre t (List.mem_cons_self t rest)
    simp only [List.cons_append, parseTokens, hnone]
    exact ih fun x hx => hpre x (List.mem_cons_of_mem t hx)

theorem mainRun_exitp {env : Env} {args : List String} {code : Int} {tr : List Eff}
    (hp : parseArgs env args = ParseResult.exitp code tr) :
    mainRun env args = Outcome.exited code tr := by
  unfold mainRun
  rw [hp]

theorem mainRun_crashed {env : Env} {args : List String} {tr : List Eff}
    (hp : parseArgs env args = ParseResult.crashed tr) :
    mainRun env args = Outcome.crashed tr := by
  unfold mainRun
  rw [hp]

theorem mainRun_cont {env : Env} {args : List String} {st : AppState} {tr : List Eff}
    (hp : parseArgs env args = ParseResult.cont st tr) :
    mainRun env args =
      (match runSession env st with
       | Outcome.exited code tr' => Outcome.exited code (tr ++ tr')
       | Outcome.crashed tr' => Outcome.crashed (tr ++ tr')) := by
  unfold mainRun
  rw [hp]

theorem mainRun_cont_exited {env : Env} {args : List String} {st : AppState}
    {tr tr' : List Eff} {code : Int}
    (hp : parseArgs env args = ParseResult.cont st tr)
    (hs : runSession env st = Outcome.exited code tr') :
    mainRun env args = Outcome.exited code (tr ++ tr') := by
  rw [mainRun_cont hp, hs]

theorem parseArgs_cons {env : Env} {p : String} {ts : List String} (h : ts ≠ []) :
    parseArgs env (p :: ts) = parseTokens env ts ⟨p, none, none⟩ := by
  cases ts with
  | nil => exact absurd rfl h
  | cons a l => rfl

theorem parseTokens_cons_cont {env : Env} {t : String} {rest : List String}
    {st st' : AppState} {c : Command} {tr : List Eff}
    (hf : findCommand t = some c)
    (ha : c.action env st rest.head? = ActResult.cont st' tr) :
    parseTokens env (t :: rest) st = ParseResult.prepend tr (parseTokens env rest st') := by
  simp only [parseTokens, hf, ha]

theorem parseTokens_cons_exit {env : Env} {t : String} {rest : List String}
    {st : AppState} {c : Command} {code : Int} {tr : List Eff}
    (hf : findCommand t = some c)
    (ha : c.action env st rest.head? = ActResult.exitp code tr) :
    parseTokens env (t :: rest) st = ParseResult.exitp code tr := by
  simp only [parseTokens, hf, ha]

theorem parseTokens_cons_crashed {env : Env} {t : String} {rest : List String}
    {st : AppState} {c : Command} {tr : List Eff}
    (hf : findCommand t = some c)
    (ha : c.action env st rest.head? = ActResult.crashed tr) :
    parseTokens env (t :: rest) st = ParseResult.crashed tr := by
  simp only [parseTokens, hf, ha]

theorem findCommand_help : findCommand "--help" = some helpCmd := rfl

theorem findCommand_i : findCommand "-i" = some inputFileCmd := rfl

theorem findCommand_o : findCommand "-o" = some setAudioOutputCmd := rfl

theorem findCommand_set_long : findCommand "--set-audio-output" = some setAudioOutputCmd := rfl

theorem setAudioOutputAction_fail {env : Env} {st : AppState} {s : String} {id : Nat}
    (hs : stoi s = some id)
    (hid : (env.get_audio_device id).id ≠ id) :
    setAudioOutputAction env st (some s) =
      ActResult.exitp 1 [Eff.log ("Error: No audio device found with ID " ++
        toString id ++ ".")] := by
  show (match stoi s with
        | none => ActResult.crashed []
        | some device_id =>
          if (env.get_audio_device device_id).id ≠ device_id then
            ActResult.exitp 1 [Eff.log ("Error: No audio device found with ID " ++
              toString device_id ++ ".")]
          else
            ActResult.cont ⟨st.program_name, st.input_file_path, some device_id⟩
              [Eff.log ("Selected Audio Output Device: " ++
                (env.get_audio_device device_id).to_string)]) = _
  rw [hs]
  simp [hid]

theorem runSession_none (env : Env) {st : AppState} (hin : st.input_file_path = none) :
    runSession env st =
      Outcome.exited 0 (initTrace ++ [Eff.log "No input file specified. Exiting."]) := by
  unfold runSession
  rw [hin]

theorem runSession_invalid {env : Env} {st : AppState} {path : String}
    (hin : st.input_file_path = some path)
    (hw : env.is_wav_file path = false) :
    runSession env st = Outcome.exited (-1) (initTrace ++
      [Eff.log ("Specified input file is not a valid WAV file: " ++ path)]) := by
  unfold runSession
  rw [hin]
  simp [hw]

theorem runSession_trackfail {env : Env} {st : AppState} {path : String}
    (hin : st.input_file_path = some path)
    (hw : env.is_wav_file path = true)
    (ht : env.track_created = false) :
    runSession env st =
      Outcome.exited (-1) (setupTrace path ++ [Eff.log "Failed to create track."]) := by
  unfold runSession
  rw [hin]
  simp [hw, ht]

theorem runSession_play {env : Env} {st : AppState} {path w : String}
    (hin : st.input_file_path = some path)
    (hw : env.is_wav_file path = true)
    (ht : env.track_created = true)
    (hread : env.read_wav_file path = some w) :
    runSession env st = Outcome.exited 0 (setupTrace path ++ deviceBindTrace env st ++
      playTrace path ++ mainLoop env.schedule) := by
  unfold runSession
  rw [hin]
  simp [hw, ht, hread]

theorem deviceBindTrace_no_default {env : Env} {st : AppState}
    (hdev : st.audio_output_device_id = none)
    (hdef : env.get_default_audio_output_device.has_value = false) :
    deviceBindTrace env st = [Eff.log "No default audio output device found."] := by
  unfold deviceBindTrace resolvedDevice
  rw [hdev]
  simp [hdef]

theorem not_log_not_mem_parse {env : Env} {args : List String} {st : AppState}
    {tr : List Eff} (hp : parseArgs env args = ParseResult.cont st tr) {e : Eff}
    (he : ∀ m, e ≠ Eff.log m) : e ∉ tr := by
  have hlog := parseArgs_trace_logOnly env args
  rw [hp] at hlog
  exact not_mem_of_logOnly hlog he

theorem mainLoop_mem (sched : List (Bool × Bool)) :
    ∀ e ∈ mainLoop sched, e = Eff.sleep100ms ∨ e = Eff.log "Shutting down engine..."
      ∨ e = Eff.trackStop ∨ e = Eff.engineStopThread := by
  induction sched with
  | nil =>
    intro e he
    cases he
  | cons ob rest ih =>
    rcases ob with ⟨engineRunning, runningFlag⟩
    cases engineRunning with
    | false =>
      intro e he
      have h0 : mainLoop ((false, runningFlag) :: rest) = [] := rfl
      rw [h0] at he
      cases he
    | true =>
      cases runningFlag with
      | false =>
        intro e he
        have h1 : mainLoop ((true, false) :: rest) =
            [Eff.log "Shutting down engine...", Eff.trackStop, Eff.engineStopThread] := rfl
        rw [h1] at he
        simp only [List.mem_cons, List.not_mem_nil, or_false] at he
        rcases he with rfl | rfl | rfl
        · right; left; rfl
        · right; right; left; rfl
        · right; right; right; rfl
      | true =>
        intro e he
        have h2 : mainLoop ((true, true) :: rest) = Eff.sleep100ms :: mainLoop rest := rfl
        rw [h2] at he
        rcases List.mem_cons.mp he with rfl | hmem
        · left; rfl
        · exact ih e hmem

/-- C1: the Shutdown Flag (`running`) starts true; every write either
trigger path performs writes `false` (the handler and the
playback-finished callback are the only writers); firing either trigger
drives the flag to `false` from any state, a trigger on an
already-false flag leaves it false (second trigger is a no-op), and the
flag never returns to `true` once false — so the only transition in any
session is the single `true → false` step. -/
theorem C1_shutdown_flag_single_transition :
    runningInit = true
    ∧ (∀ t : ShutdownTrigger, ∀ b ∈ flagWrites (triggerEffects t), b = false)
    ∧ (∀ t : ShutdownTrigger, stepFlag false t = false)
    ∧ (∀ b : Bool, stepFlag b ShutdownTrigger.sigint = false)
    ∧ (∀ b : Bool, stepFlag b (ShutdownTrigger.trackEvent eTrackEvent.PlaybackFinished) = false)
    ∧ (∀ ts us : List ShutdownTrigger, flagAfter (ts ++ us) = true → flagAfter ts = true) := by
  refine ⟨rfl, ?_, stepFlag_false, ?_, ?_, ?_⟩
  · intro t b hb
    cases t with
    | sigint =>
      simp [triggerEffects, sigintHandlerEffects, flagWrites] at hb
      exact hb
    | trackEvent e =>
      cases e with
      | PlaybackFinished =>
        simp [triggerEffects, trackEventCallbackEffects, flagWrites] at hb
        exact hb
      | OtherEvent =>
        simp [triggerEffects, trackEventCallbackEffects, flagWrites] at hb
  · intro b
    cases b <;> rfl
  · intro b
    cases b <;> rfl
  · intro ts us h
    by_contra hne
    have hfa : flagAfter ts = false := by
      cases hx : flagAfter ts
      · rfl
      · exact absurd hx hne
    rw [flagAfter, List.foldl_append] at h
    have hsame : List.foldl stepFlag runningInit ts = flagAfter ts := rfl
    rw [hsame, hfa, foldl_stepFlag_false] at h
    exact Bool.false_ne_true h

theorem C1_shutdown_flag_single_transition_witness :
    (false = false)
    ∧ stepFlag true ShutdownTrigger.sigint = false
    ∧ flagAfter [] = true :=
  ⟨C1_shutdown_flag_single_transition.2.1 ShutdownTrigger.sigint false (by decide),
   C1_shutdown_flag_single_transition.2.2.2.1 true,
   C1_shutdown_flag_single_transition.2.2.2.2.2 []
     [ShutdownTrigger.trackEvent eTrackEvent.OtherEvent] (by decide)⟩

/-- C2: on every run of the program — any environment, any argument
list, hence any shutdown path of the supervising loop (flag-triggered
or engine-not-running) — the teardown calls observed in the trace are
either absent or exactly `track stop` followed by `engine-thread
stop`; a stop of the engine thread never precedes a track stop. -/
theorem C2_teardown_order (env : Env) (args : List String) :
    stopCalls (mainRun env args).trace = []
    ∨ stopCalls (mainRun env args).trace = [Eff.trackStop, Eff.engineStopThread] := by
  cases hp : parseArgs env args with
  | exitp code tr =>
    left
    have h := parseArgs_trace_logOnly env args
    rw [hp] at h
    rw [mainRun_exitp hp]
    exact stopCalls_eq_nil_of_logOnly h
  | crashed tr =>
    left
    have h := parseArgs_trace_logOnly env args
    rw [hp] at h
    rw [mainRun_crashed hp]
    exact stopCalls_eq_nil_of_logOnly h
  | cont st tr =>
    have htr : stopCalls tr = [] := by
      have h := parseArgs_trace_logOnly env args
      rw [hp] at h
      exact stopCalls_eq_nil_of_logOnly h
    have hses := runSession_stopCalls env st
    rw [mainRun_cont hp]
    cases hs : runSession env st with
    | exited code tr' =>
      rw [hs] at hses
      simp only [Outcome.trace] at hses ⊢
      rw [stopCalls_append, htr]
      rcases hses with h | h
      · left
        rw [h]
        rfl
      · right
        rw [h]
        rfl
    | crashed tr' =>
      rw [hs] at hses
      simp only [Outcome.trace] at hses ⊢
      rw [stopCalls_append, htr]
      rcases hses with h | h
      · left
        rw [h]
        rfl
      · right
        rw [h]
        rfl

/-- C3: the claim says the installed SIGINT handler's only action is
the flag write.  The handler in the source logs before writing the
flag: its effect list is not the single flag write, it contains a log
call (the flag write is indeed there, and is its only flag effect). -/
theorem C3_sigint_handler_logs :
    sigintHandlerEffects ≠ [Eff.setRunning false]
    ∧ Eff.log "SIGINT received, shutting down..." ∈ sigintHandlerEffects
    ∧ Eff.setRunning false ∈ sigintHandlerEffects := by
  exact ⟨by decide, by decide, by decide⟩

/-- C4 counterexample: with a track manager whose `get_track` fails and
an input of `player -i song.wav`, the run exits with failure status but
the engine thread, started before track creation, receives no stop call
— the claim that no partial playback session is left running is false
at this input. -/
theorem C4_counterexample :
    (mainRun envTrackFail ["player", "-i", "song.wav"]).code = some (-1)
    ∧ Eff.engineStartThread ∈ (mainRun envTrackFail ["player", "-i", "song.wav"]).trace
    ∧ Eff.engineStopThread ∉ (mainRun envTrackFail ["player", "-i", "song.wav"]).trace := by
  exact ⟨by decide, by decide, by decide⟩

/-- C4 (amended): on track-creation failure the process exits with
failure status (-1), but the engine thread that was already started is
left running — no engine-thread stop call appears in the trace; and the
result of `engine.start_thread()` is discarded, so a failed
engine-thread start does not abort the session (the run is identical
for either start result). -/
theorem C4_amended_track_failure (env : Env) (args : List String) (st : AppState)
    (tr : List Eff) (path : String)
    (hp : parseArgs env args = ParseResult.cont st tr)
    (hin : st.input_file_path = some path)
    (hw : env.is_wav_file path = true)
    (ht : env.track_created = false) :
    (mainRun env args).code = some (-1)
    ∧ Eff.engineStartThread ∈ (mainRun env args).trace
    ∧ Eff.engineStopThread ∉ (mainRun env args).trace
    ∧ (∀ b : Bool, runSession (withStartOk env b) st = runSession env st) := by
  have hs := runSession_trackfail hin hw ht
  have hm := mainRun_cont_exited hp hs
  refine ⟨by rw [hm]; rfl, ?_, ?_, ?_⟩
  · rw [hm]
    simp [Outcome.trace, setupTrace, initTrace]
  · rw [hm]
    simp only [Outcome.trace, List.mem_append]
    rintro (h | h)
    · exact not_log_not_mem_parse hp (by simp) h
    · simp [setupTrace, initTrace] at h
  · intro b
    cases env
    rfl

theorem C4_amended_track_failure_witness :
    (mainRun envTrackFail ["player", "-i", "missing.wav"]).code = some (-1)
    ∧ runSession (withStartOk envTrackFail false) ⟨"player", some "missing.wav", none⟩ =
        runSession envTrackFail ⟨"player", some "missing.wav", none⟩ :=
  ⟨(C4_amended_track_failure envTrackFail ["player", "-i", "missing.wav"]
      ⟨"player", some "missing.wav", none⟩ [] "missing.wav"
      (by decide) (by decide) (by decide) (by decide)).1,
   (C4_amended_track_failure envTrackFail ["player", "-i", "missing.wav"]
      ⟨"player", some "missing.wav", none⟩ [] "missing.wav"
      (by decide) (by decide) (by decide) (by decide)).2.2.2 false⟩

/-- C5: for an id that `std::stoi` accepts (all-digit, within `int`
range) but whose lookup fails (the returned descriptor's id differs
from the requested one), with either option form: (1) whenever the
token scan reaches the option token — in ANY scan state, i.e. whatever
options came before — it terminates at once with exit status 1 and the
single diagnostic naming the requested id, ignoring all later tokens
(no further configuration); (2) every scan exit is the process exit and
no scan trace contains an engine thread start, so such invocations
never reach playback start; (3) the paradigm invocation
`prog -i <file> <opt> <id> ...` (the file token matching no option)
exits 1 with exactly that diagnostic. -/
theorem C5_unknown_output_device (env : Env) (tok s : String) (id : Nat)
    (htok : tok = "--set-audio-output" ∨ tok = "-o")
    (hs : stoi s = some id)
    (hid : (env.get_audio_device id).id ≠ id) :
    (∀ (st : AppState) (rest : List String),
        parseTokens env (tok :: s :: rest) st =
          ParseResult.exitp 1 [Eff.log ("Error: No audio device found with ID " ++
            toString id ++ ".")])
    ∧ (∀ (args : List String) (code : Int) (tr : List Eff),
        parseArgs env args = ParseResult.exitp code tr →
        mainRun env args = Outcome.exited code tr ∧ Eff.engineStartThread ∉ tr)
    ∧ (∀ (prog path : String) (rest : List String),
        findCommand path = none →
        mainRun env (prog :: "-i" :: path :: tok :: s :: rest) =
          Outcome.exited 1 [Eff.log ("Error: No audio device found with ID " ++
            toString id ++ ".")]) := by
  have hreach : ∀ (st : AppState) (rest : List String),
      parseTokens env (tok :: s :: rest) st =
        ParseResult.exitp 1 [Eff.log ("Error: No audio device found with ID " ++
          toString id ++ ".")] := by
    intro st rest
    rcases htok with rfl | rfl
    · exact parseTokens_cons_exit findCommand_set_long (setAudioOutputAction_fail hs hid)
    · exact parseTokens_cons_exit findCommand_o (setAudioOutputAction_fail hs hid)
  refine ⟨hreach, ?_, ?_⟩
  · intro args code tr hp
    refine ⟨mainRun_exitp hp, ?_⟩
    have hlog := parseArgs_trace_logOnly env args
    rw [hp] at hlog
    exact not_mem_of_logOnly hlog (by simp)
  · intro prog path rest hpath
    have hp : parseArgs env (prog :: "-i" :: path :: tok :: s :: rest) =
        ParseResult.exitp 1 [Eff.log ("Error: No audio device found with ID " ++
          toString id ++ ".")] := by
      rw [parseArgs_cons (by simp),
        parseTokens_cons_cont findCommand_i
          (show inputFileCmd.action env ⟨prog, none, none⟩ (some path) =
            ActResult.cont ⟨prog, some path, none⟩ [] from rfl)]
      have hskip : parseTokens env (path :: tok :: s :: rest) ⟨prog, some path, none⟩ =
          parseTokens env (tok :: s :: rest) ⟨prog, some path, none⟩ := by
        simp only [parseTokens, hpath]
      rw [hskip, hreach ⟨prog, some path, none⟩ rest]
      rfl
    exact mainRun_exitp hp

theorem C5_unknown_output_device_witness :
    parseTokens envNoDevice ["-o", "99"] initState =
      ParseResult.exitp 1 [Eff.log ("Error: No audio device found with ID " ++
        toString 99 ++ ".")]
    ∧ mainRun envNoDevice ["player", "-i", "valid.wav", "-o", "99"] =
        Outcome.exited 1 [Eff.log ("Error: No audio device found with ID " ++
          toString 99 ++ ".")] :=
  ⟨(C5_unknown_output_device envNoDevice "-o" "99" 99 (Or.inr rfl)
      (by decide) (by decide)).1 initState [],
   (C5_unknown_output_device envNoDevice "-o" "99" 99 (Or.inr rfl)
      (by decide) (by decide)).2.2 "player" "valid.wav" [] rfl⟩

/-- C6: when an input file path was supplied but fails the WAV validity
check, the run exits with failure status (-1), the engine thread is
never started, and no input source is ever bound to a track. -/
theorem C6_invalid_wav_file (env : Env) (args : List String) (st : AppState)
    (tr : List Eff) (path : String)
    (hp : parseArgs env args = ParseResult.cont st tr)
    (hin : st.input_file_path = some path)
    (hw : env.is_wav_file path = false) :
    (mainRun env args).code = some (-1)
    ∧ Eff.engineStartThread ∉ (mainRun env args).trace
    ∧ (∀ q, Eff.addFileInput q ∉ (mainRun env args).trace) := by
  have hs := runSession_invalid hin hw
  have hm := mainRun_cont_exited hp hs
  refine ⟨by rw [hm]; rfl, ?_, ?_⟩
  · rw [hm]
    simp only [Outcome.trace, List.mem_append]
    rintro (h | h)
    · exact not_log_not_mem_parse hp (by simp) h
    · simp [initTrace] at h
  · intro q
    rw [hm]
    simp only [Outcome.trace, List.mem_append]
    rintro (h | h)
    · exact not_log_not_mem_parse hp (by simp) h
    · simp [initTrace] at h

theorem C6_invalid_wav_file_witness :
    (mainRun envBadWav ["player", "-i", "notwav.txt"]).code = some (-1)
    ∧ Eff.engineStartThread ∉ (mainRun envBadWav ["player", "-i", "notwav.txt"]).trace :=
  ⟨(C6_invalid_wav_file envBadWav ["player", "-i", "notwav.txt"]
      ⟨"player", some "notwav.txt", none⟩ [] "notwav.txt"
      (by decide) (by decide) (by decide)).1,
   (C6_invalid_wav_file envBadWav ["player", "-i", "notwav.txt"]
      ⟨"player", some "notwav.txt", none⟩ [] "notwav.txt"
      (by decide) (by decide) (by decide)).2.1⟩

/-- C7: when argument scanning completes without a terminal action and
no input file was recorded, the run logs the nothing-to-do message and
exits with success status 0 without ever starting the engine thread. -/
theorem C7_no_input_file_exit0 (env : Env) (args : List String) (st : AppState)
    (tr : List Eff)
    (hp : parseArgs env args = ParseResult.cont st tr)
    (hin : st.input_file_path = none) :
    mainRun env args = Outcome.exited 0
      (tr ++ (initTrace ++ [Eff.log "No input file specified. Exiting."]))
    ∧ Eff.engineStartThread ∉ (mainRun env args).trace := by
  have hs := runSession_none env hin
  have hm := mainRun_cont_exited hp hs
  refine ⟨hm, ?_⟩
  rw [hm]
  simp only [Outcome.trace, List.mem_append]
  rintro (h | h)
  · exact not_log_not_mem_parse hp (by simp) h
  · simp [initTrace] at h

theorem C7_no_input_file_exit0_witness :
    mainRun baseEnv ["player", "stray"] = Outcome.exited 0
      ([] ++ (initTrace ++ [Eff.log "No input file specified. Exiting."]))
    ∧ Eff.engineStartThread ∉ (mainRun baseEnv ["player", "stray"]).trace :=
  C7_no_input_file_exit0 baseEnv ["player", "stray"] ⟨"player", none, none⟩ []
    (by decide) (by decide)

/-- C8: when no output device id was configured and the system default
output device does not exist, the session logs the failure but
continues: no output is bound, yet the input source is bound, playback
is started, and the run terminates normally with status 0. -/
theorem C8_no_output_device_degraded_continue (env : Env) (args : List String)
    (st : AppState) (tr : List Eff) (path w : String)
    (hp : parseArgs env args = ParseResult.cont st tr)
    (hin : st.input_file_path = some path)
    (hw : env.is_wav_file path = true)
    (ht : env.track_created = true)
    (hdev : st.audio_output_device_id = none)
    (hdef : env.get_default_audio_output_device.has_value = false)
    (hread : env.read_wav_file path = some w) :
    (mainRun env args).code = some 0
    ∧ Eff.log "No default audio output device found." ∈ (mainRun env args).trace
    ∧ Eff.addFileInput path ∈ (mainRun env args).trace
    ∧ Eff.trackPlay ∈ (mainRun env args).trace
    ∧ (∀ i, Eff.addDeviceOutput i ∉ (mainRun env args).trace) := by
  have hs := runSession_play hin hw ht hread
  rw [deviceBindTrace_no_default hdev hdef] at hs
  have hm := mainRun_cont_exited hp hs
  refine ⟨by rw [hm]; rfl, ?_, ?_, ?_, ?_⟩
  · rw [hm]
    simp [Outcome.trace, List.mem_append]
  · rw [hm]
    simp [Outcome.trace, playTrace, List.mem_append]
  · rw [hm]
    simp [Outcome.trace, playTrace, List.mem_append]
  · intro i
    rw [hm]
    simp only [Outcome.trace, List.mem_append]
    rintro (h | h)
    · exact not_log_not_mem_parse hp (by simp) h
    · rcases h with ((h3 | h3) | h3) | h3
      · simp [setupTrace, initTrace] at h3
      · simp at h3
      · simp [playTrace] at h3
      · rcases mainLoop_mem env.schedule _ h3 with h4 | h4 | h4 | h4 <;> cases h4

theorem C8_no_output_device_degraded_continue_witness :
    (mainRun envNoDevice ["player", "-i", "song.wav"]).code = some 0
    ∧ Eff.trackPlay ∈ (mainRun envNoDevice ["player", "-i", "song.wav"]).trace :=
  ⟨(C8_no_output_device_degraded_continue envNoDevice ["player", "-i", "song.wav"]
      ⟨"player", some "song.wav", none⟩ [] "song.wav" "song.wav"
      (by decide) (by decide) (by decide) (by decide) (by decide) (by decide)
      (by decide)).1,
   (C8_no_output_device_degraded_continue envNoDevice ["player", "-i", "song.wav"]
      ⟨"player", some "song.wav", none⟩ [] "song.wav" "song.wav"
      (by decide) (by decide) (by decide) (by decide) (by decide) (by decide)
      (by decide)).2.2.2.1⟩

/-- C9: a matched option's action receives the following token as its
argument, but the scan does not consume that token — the scan resumes
at it (first conjunct: the general scan equation), and so a terminal
option appearing right after `--input-file`/`-i` is both recorded as
the input path and executed as an option: `-i --help` stores `--help`
as the input file and then runs the help action, which exits 0. -/
theorem C9_argument_token_rescanned (env : Env) (st : AppState) (rest : List String) :
    inputFileAction env st (some "--help") =
      ActResult.cont ⟨st.program_name, some "--help", st.audio_output_device_id⟩ []
    ∧ (∀ (t u : String) (c : Command) (st0 st' : AppState) (tr : List Eff)
         (us : List String),
        findCommand t = some c →
        c.action env st0 (u :: us).head? = ActResult.cont st' tr →
        parseTokens env (t :: u :: us) st0 =
          ParseResult.prepend tr (parseTokens env (u :: us) st'))
    ∧ parseTokens env ("-i" :: "--help" :: rest) st =
        ParseResult.exitp 0 (helpEffects st.program_name) := by
  refine ⟨rfl, ?_, ?_⟩
  · intro t u c st0 st' tr us hf ha
    exact parseTokens_cons_cont hf ha
  · rw [parseTokens_cons_cont findCommand_i
      (show inputFileCmd.action env st (some "--help") =
        ActResult.cont ⟨st.program_name, some "--help", st.audio_output_device_id⟩ []
        from rfl)]
    rw [parseTokens_cons_exit findCommand_help
      (show helpCmd.action env ⟨st.program_name, some "--help", st.audio_output_device_id⟩
        rest.head? = ActResult.exitp 0 (helpEffects st.program_name) from rfl)]
    rfl

theorem C9_argument_token_rescanned_witness :
    parseTokens baseEnv ["-i", "--help"] initState =
      ParseResult.prepend [] (parseTokens baseEnv ["--help"] ⟨"", some "--help", none⟩) :=
  (C9_argument_token_rescanned baseEnv initState []).2.1 "-i" "--help" inputFileCmd
    initState ⟨"", some "--help", none⟩ [] [] rfl rfl

/-- C10: when a matched option is the final token, the scan invokes its
action with no argument (the null `argv[i+1]`) — first conjunct, the
general equation; the `--input-file`/`-i` action on a null argument is
undefined behaviour (it unconditionally builds a `std::string` from the
pointer), while with a following token it safely records the path — so
the action is safe exactly when a following token exists. -/
theorem C10_final_token_null_argument (env : Env) (st : AppState) (s t : String)
    (c : Command)
    (hf : findCommand t = some c) :
    parseTokens env [t] st =
      (match c.action env st none with
       | ActResult.cont st2 tr => ParseResult.cont st2 (tr ++ [])
       | ActResult.exitp n tr => ParseResult.exitp n tr
       | ActResult.crashed tr => ParseResult.crashed tr)
    ∧ inputFileAction env st none = ActResult.crashed []
    ∧ inputFileAction env st (some s) =
        ActResult.cont ⟨st.program_name, some s, st.audio_output_device_id⟩ []
    ∧ parseTokens env ["-i"] st = ParseResult.crashed [] := by
  refine ⟨?_, rfl, rfl, ?_⟩
  · cases ha : c.action env st none with
    | cont st2 tr =>
      simp only [parseTokens, hf, List.head?_nil, ha, ParseResult.prepend]
    | exitp n tr =>
      simp only [parseTokens, hf, List.head?_nil, ha]
    | crashed tr =>
      simp only [parseTokens, hf, List.head?_nil, ha]
  · exact parseTokens_cons_crashed findCommand_i rfl

theorem C10_final_token_null_argument_witness :
    parseTokens baseEnv ["-i"] initState =
      (match inputFileCmd.action baseEnv initState none with
       | ActResult.cont st2 tr => ParseResult.cont st2 (tr ++ [])
       | ActResult.exitp n tr => ParseResult.exitp n tr
       | ActResult.crashed tr => ParseResult.crashed tr)
    ∧ parseTokens baseEnv ["-i"] initState = ParseResult.crashed [] :=
  ⟨(C10_final_token_null_argument baseEnv initState "x" "-i" inputFileCmd rfl).1,
   (C10_final_token_null_argument baseEnv initState "x" "-i" inputFileCmd rfl).2.2.2⟩

end WavPlayer
